import Mathlib

/-!
Shallow embedding of the `kraken-ramp-optimizer` ingestion pipeline
(`src/ingestion/{state_manager,generators,main}.py`) and proofs about it.

Modelling conventions:
* Calendar dates are integers (day ordinals); timestamps are integers
  (seconds); one day is 86400 seconds.
* Python floats are modelled as exact rationals; Python's built-in
  `round(x, d)` (half-to-even) is modelled by `roundTo`.
* Random draws are modelled by threading the drawn primitive values
  explicitly (a record of draws per generated row, indexed by row number),
  so every generator is a pure function of its inputs and its draw stream.
* Python exceptions are modelled with `Except String`.
-/

namespace Ingestion

/-- Half-to-even rounding of a rational to an integer, modelling the tie
behaviour of Python's built-in `round`. -/
def roundHalfEven (x : ℚ) : ℤ :=
  if x - ⌊x⌋ < 1/2 then ⌊x⌋
  else if 1/2 < x - ⌊x⌋ then ⌊x⌋ + 1
  else if ⌊x⌋ % 2 = 0 then ⌊x⌋ else ⌊x⌋ + 1

/-- Model of Python `round(x, d)` on ideal (rational) numbers. -/
def roundTo (x : ℚ) (d : ℕ) : ℚ :=
  (roundHalfEven (x * 10 ^ d) : ℚ) / 10 ^ d

/-- Model of Python `dict.get(key, default)` over an association list. -/
def dictGet (m : List (String × ℚ)) (key : String) (default : ℚ) : ℚ :=
  match m.find? (fun p => p.1 == key) with
  | some p => p.2
  | none => default

theorem roundHalfEven_sub_abs_le (x : ℚ) : |(roundHalfEven x : ℚ) - x| ≤ 1/2 := by
  have h0 : (⌊x⌋ : ℚ) ≤ x := Int.floor_le x
  have h1 : x < ⌊x⌋ + 1 := Int.lt_floor_add_one x
  unfold roundHalfEven
  split
  · rename_i h
    rw [abs_le]
    constructor <;> linarith
  · split
    · rename_i h h2
      rw [abs_le]
      push_cast
      constructor <;> linarith
    · split
      · rename_i h h2 h3
        rw [abs_le]
        constructor <;> linarith
      · rename_i h h2 h3
        rw [abs_le]
        push_cast
        constructor <;> linarith

theorem roundTo_sub_abs_le (x : ℚ) (d : ℕ) :
    |roundTo x d - x| ≤ 1 / (2 * 10 ^ d) := by
  have hp : (0:ℚ) < 10 ^ d := by positivity
  have h := roundHalfEven_sub_abs_le (x * 10 ^ d)
  have heq : roundTo x d - x = ((roundHalfEven (x * 10 ^ d) : ℚ) - x * 10 ^ d) / 10 ^ d := by
    field_simp [roundTo]
    ring
  rw [heq, abs_div, abs_of_pos hp]
  rw [div_le_div_iff₀ hp (by positivity)]
  calc |(roundHalfEven (x * 10 ^ d) : ℚ) - x * 10 ^ d| * (2 * 10 ^ d)
      ≤ (1/2) * (2 * 10 ^ d) := by
        apply mul_le_mul_of_nonneg_right h
        positivity
    _ = 1 * 10 ^ d := by ring

theorem roundTo_zero (d : ℕ) : roundTo 0 d = 0 := by
  simp [roundTo, roundHalfEven]

/-! ## State manager (`src/ingestion/state_manager.py`)

The persisted metadata file can be absent, present but unreadable or
malformed (invalid JSON or not the expected JSON object shape — in which
case `json.load` / attribute access raises), or a readable record whose
`last_run_date` entry is a date, or missing / `null`. -/

inductive StateContent where
  | absent : StateContent
  | malformed : StateContent
  | record : Option ℤ → StateContent
deriving DecidableEq

/-- `get_last_run_date`: absent file ↦ `None`; readable record ↦ its
`last_run_date` entry (or `None` when missing/null); a malformed file makes
`json.load` (or the shape access) raise, which propagates to the caller. -/
def get_last_run_date : StateContent → Except String (Option ℤ)
  | .absent => .ok none
  | .malformed => .error "json.decoder.JSONDecodeError"
  | .record d => .ok d

/-- `save_last_run_date(run_date)`: overwrites the metadata file with a
record holding `run_date` (the wall-clock audit timestamp also written by
the source is not modelled). -/
def save_last_run_date (run_date : ℤ) : StateContent :=
  .record (some run_date)

/-- `get_next_batch_date`: first run starts 90 days before today; otherwise
the day after the last run, or `None` when that would pass today. A read
error from `get_last_run_date` propagates. -/
def get_next_batch_date (file : StateContent) (today : ℤ) : Except String (Option ℤ) :=
  match get_last_run_date file with
  | .error e => .error e
  | .ok none => .ok (some (today - 90))
  | .ok (some last_run) =>
      let next_date := last_run + 1
      if next_date > today then .ok none else .ok (some next_date)

/-- **C2**: `get_next_batch_date` returns today − 90 when no prior state is
recorded, `last + 1` when that does not pass today, `none` when it does —
in particular `none` whenever the recorded date is today itself. -/
theorem c2_next_batch_date_spec (file : StateContent) (today : ℤ) (lr : Option ℤ)
    (h : get_last_run_date file = .ok lr) :
    (lr = none → get_next_batch_date file today = .ok (some (today - 90))) ∧
    (∀ last_run, lr = some last_run → ¬(last_run + 1 > today) →
      get_next_batch_date file today = .ok (some (last_run + 1))) ∧
    (∀ last_run, lr = some last_run → last_run + 1 > today →
      get_next_batch_date file today = .ok none) ∧
    (lr = some today → get_next_batch_date file today = .ok none) := by
  refine ⟨?_, ?_, ?_, ?_⟩
  · intro hn
    subst hn
    simp [get_next_batch_date, h]
  · intro last_run hl hle
    subst hl
    simp [get_next_batch_date, h, hle]
  · intro last_run hl hgt
    subst hl
    simp [get_next_batch_date, h, hgt]
  · intro hl
    subst hl
    simp [get_next_batch_date, h]

/-- Witness for C2: a state recorded as of day 5, queried on day 5, yields
`none` (caught up). -/
theorem c2_next_batch_date_spec_witness :
    get_next_batch_date (.record (some 5)) 5 = .ok none :=
  (c2_next_batch_date_spec (.record (some 5)) 5 (some 5) rfl).2.2.2 rfl

/-- **C3, counterexample**: a malformed state file does not behave like an
absent one — the read error propagates out of both `get_last_run_date` and
`get_next_batch_date` instead of yielding today − 90. -/
theorem c3_counterexample :
    get_next_batch_date .malformed 0 ≠ .ok (some (0 - 90)) ∧
    get_next_batch_date .malformed 0 ≠ get_next_batch_date .absent 0 ∧
    get_last_run_date .malformed ≠ .ok none := by
  refine ⟨?_, ?_, ?_⟩ <;> simp [get_next_batch_date, get_last_run_date]

/-- **C3, amended**: when the state file exists but is malformed, the parse
error propagates out of `get_last_run_date` and `get_next_batch_date`
(no fail-open); only an absent file, or a readable record whose
`last_run_date` is missing or null, is treated as no prior state, in which
case `get_next_batch_date` returns today − 90. -/
theorem c3_amended_malformed_state_raises (today : ℤ) :
    (∃ e, get_last_run_date .malformed = .error e) ∧
    (∃ e, get_next_batch_date .malformed today = .error e) ∧
    get_next_batch_date .absent today = .ok (some (today - 90)) ∧
    get_next_batch_date (.record none) today = .ok (some (today - 90)) := by
  refine ⟨⟨_, rfl⟩, ⟨_, rfl⟩, rfl, rfl⟩

/-- **C10**: a persisted last run date strictly after today yields `none`
(caught up), never an error or a future batch date. -/
theorem c10_future_state_yields_none (last_run today : ℤ) (h : today < last_run) :
    get_next_batch_date (.record (some last_run)) today = .ok none := by
  simp [get_next_batch_date, get_last_run_date]
  omega

/-- Witness for C10: last run recorded as day 7, today is day 3. -/
theorem c10_future_state_yields_none_witness :
    get_next_batch_date (.record (some 7)) 3 = .ok none :=
  c10_future_state_yields_none 7 3 (by norm_num)

/-! ## Entity generators (`src/ingestion/generators.py`)

Each generator draws its per-row randomness from a stream of draw records,
indexed by row number.  The lists `SUPPORTED_FIAT`, `SUPPORTED_CRYPTO` and
`PAYMENT_METHODS` are imported from `config` but have no definition in the
source tree (`config.py` holds an old copy of the generator module
instead), so category draws are modelled directly as the drawn value and
the one branch that tests list membership takes the list as a parameter. -/

/-- Number of seconds in one day. -/
def secondsPerDay : ℤ := 86400

/-- The support of Python `random.randint(lo, hi)`: both endpoints are
inclusive. -/
def randintMem (lo hi n : ℕ) : Prop := lo ≤ n ∧ n ≤ hi

/-- The row-timestamp logic shared by every generator: with a target date,
the start of that day plus `random.randint(0, 86400)` drawn seconds;
without one, now minus drawn days and minutes. -/
def rowTimestamp (target_date : Option ℤ) (now : ℤ)
    (random_seconds days_ago minutes_ago : ℕ) : ℤ :=
  match target_date with
  | some d => d * secondsPerDay + random_seconds
  | none => now - ((days_ago : ℤ) * secondsPerDay + (minutes_ago : ℤ) * 60)

/-- The `ValueError` message raised by every dependent-entity generator on
an empty (or missing) user-id pool. -/
def refIntegrityError : String :=
  "user_ids must be provided to ensure referential integrity with users table"

/-- Per-row draws of `generate_mock_ramp_data`. -/
structure RampRand where
  random_seconds : ℕ
  days_ago : ℕ
  minutes_ago : ℕ
  country_code : String
  fiat_currency : String
  fiat_amount_draw : ℚ
  crypto_token : String
  transaction_id : String
  user_index : ℕ
  payment_method : String
  status : String

structure RampRecord where
  transaction_id : String
  user_id : String
  timestamp : ℤ
  fiat_currency : String
  fiat_amount : ℚ
  crypto_token : String
  crypto_amount : ℚ
  payment_method : String
  country : String
  status : String
  fee_usd : ℚ
deriving DecidableEq

/-- Loop body of `generate_mock_ramp_data` (generators.py lines 50-128):
one ramp-transaction record.  `random.choice(user_ids)` is modelled as a
uniform index draw reduced modulo the pool size. -/
def mkRampRecord (crypto_prices fx_rates : List (String × ℚ)) (target_date : Option ℤ)
    (now : ℤ) (user_ids : List String) (r : RampRand) : RampRecord :=
  let txn_date := rowTimestamp target_date now r.random_seconds r.days_ago r.minutes_ago
  let fiat_amount := roundTo r.fiat_amount_draw 2
  let usd_rate := dictGet fx_rates r.fiat_currency 1
  let amount_in_usd := fiat_amount / usd_rate
  let fee_rate : ℚ := 15/1000
  let net_amount_usd := amount_in_usd * (1 - fee_rate)
  let token_price_usd := dictGet crypto_prices r.crypto_token 0
  let crypto_amount := if token_price_usd > 0 then net_amount_usd / token_price_usd else 0
  { transaction_id := r.transaction_id
    user_id := user_ids.getD (r.user_index % user_ids.length) ""
    timestamp := txn_date
    fiat_currency := r.fiat_currency
    fiat_amount := fiat_amount
    crypto_token := r.crypto_token
    crypto_amount := roundTo crypto_amount 8
    payment_method := r.payment_method
    country := r.country_code
    status := r.status
    fee_usd := roundTo (amount_in_usd * fee_rate) 2 }

def generate_mock_ramp_data (num_records : ℕ) (crypto_prices fx_rates : List (String × ℚ))
    (target_date : Option ℤ) (user_ids : List String) (now : ℤ) (rand : ℕ → RampRand) :
    Except String (List RampRecord) :=
  if user_ids.isEmpty then .error refIntegrityError
  else .ok ((List.range num_records).map fun i =>
    mkRampRecord crypto_prices fx_rates target_date now user_ids (rand i))

/-- Per-row draws of `generate_mock_deposits`. -/
structure DepositRand where
  random_seconds : ℕ
  days_ago : ℕ
  minutes_ago : ℕ
  is_fiat : Bool
  fiat_currency : String
  fiat_amount_draw : ℚ
  crypto_currency : String
  crypto_amount_draw : ℚ
  fiat_payment_method : String
  status : String
  deposit_id : String
  user_index : ℕ
  confirmations : ℕ

structure DepositRecord where
  deposit_id : String
  user_id : String
  timestamp : ℤ
  deposit_type : String
  currency : String
  amount : ℚ
  payment_method : String
  status : String
  blockchain_confirmations : Option ℕ
  created_at : ℤ
deriving DecidableEq

/-- Loop body of `generate_mock_deposits` (generators.py lines 215-260). -/
def mkDepositRecord (target_date : Option ℤ) (now : ℤ) (user_ids : List String)
    (r : DepositRand) : DepositRecord :=
  let deposit_date := rowTimestamp target_date now r.random_seconds r.days_ago r.minutes_ago
  { deposit_id := r.deposit_id
    user_id := user_ids.getD (r.user_index % user_ids.length) ""
    timestamp := deposit_date
    deposit_type := if r.is_fiat then "fiat" else "crypto"
    currency := if r.is_fiat then r.fiat_currency else r.crypto_currency
    amount := if r.is_fiat then roundTo r.fiat_amount_draw 2 else roundTo r.crypto_amount_draw 8
    payment_method := if r.is_fiat then r.fiat_payment_method else "blockchain"
    status := r.status
    blockchain_confirmations := if r.is_fiat then none else some r.confirmations
    created_at := deposit_date }

def generate_mock_deposits (num_deposits : ℕ) (target_date : Option ℤ)
    (user_ids : List String) (now : ℤ) (rand : ℕ → DepositRand) :
    Except String (List DepositRecord) :=
  if user_ids.isEmpty then .error refIntegrityError
  else .ok ((List.range num_deposits).map fun i => mkDepositRecord target_date now user_ids (rand i))

/-- Per-row draws of `generate_mock_withdrawals`. -/
structure WithdrawalRand where
  random_seconds : ℕ
  days_ago : ℕ
  minutes_ago : ℕ
  is_crypto : Bool
  crypto_currency : String
  crypto_amount_draw : ℚ
  fiat_currency : String
  fiat_amount_draw : ℚ
  fiat_destination : String
  has_tx_hash : Bool
  tx_hash_value : String
  status : String
  withdrawal_id : String
  user_index : ℕ

structure WithdrawalRecord where
  withdrawal_id : String
  user_id : String
  timestamp : ℤ
  withdrawal_type : String
  currency : String
  amount : ℚ
  fee : ℚ
  destination_type : String
  tx_hash : Option String
  status : String
  created_at : ℤ
deriving DecidableEq

/-- Loop body of `generate_mock_withdrawals` (generators.py lines 280-331). -/
def mkWithdrawalRecord (target_date : Option ℤ) (now : ℤ) (user_ids : List String)
    (r : WithdrawalRand) : WithdrawalRecord :=
  let withdrawal_date := rowTimestamp target_date now r.random_seconds r.days_ago r.minutes_ago
  let amount := if r.is_crypto then roundTo r.crypto_amount_draw 8 else roundTo r.fiat_amount_draw 2
  let fee : ℚ := if r.is_crypto then amount * (5/1000) else 10
  { withdrawal_id := r.withdrawal_id
    user_id := user_ids.getD (r.user_index % user_ids.length) ""
    timestamp := withdrawal_date
    withdrawal_type := if r.is_crypto then "crypto" else "fiat"
    currency := if r.is_crypto then r.crypto_currency else r.fiat_currency
    amount := amount
    fee := if r.is_crypto then roundTo fee 8 else fee
    destination_type := if r.is_crypto then "wallet_address" else r.fiat_destination
    tx_hash := if r.is_crypto then (if r.has_tx_hash then some r.tx_hash_value else none) else none
    status := r.status
    created_at := withdrawal_date }

def generate_mock_withdrawals (num_withdrawals : ℕ) (target_date : Option ℤ)
    (user_ids : List String) (now : ℤ) (rand : ℕ → WithdrawalRand) :
    Except String (List WithdrawalRecord) :=
  if user_ids.isEmpty then .error refIntegrityError
  else .ok ((List.range num_withdrawals).map fun i =>
    mkWithdrawalRecord target_date now user_ids (rand i))

/-- Trade rows: produced both by the superseded independent generator
`generate_mock_trades` and by `generate_trades_from_orders`. -/
structure TradeRecord where
  trade_id : String
  order_id : String
  user_id : String
  timestamp : ℤ
  trading_pair : String
  side : String
  base_currency : String
  quote_currency : String
  base_amount : ℚ
  quote_amount : ℚ
  price : ℚ
  fee_amount : ℚ
  fee_currency : String
  order_type : String
  is_maker : Bool
  created_at : ℤ
deriving DecidableEq

/-- Per-row draws of `generate_mock_trades`.  `quote_currency` models the
outcome of the draw-then-redraw-until-distinct loop (generators.py lines
365-369) as a single resolved draw. -/
structure TradeRand where
  random_seconds : ℕ
  days_ago : ℕ
  minutes_ago : ℕ
  base_currency : String
  quote_currency : String
  side : String
  base_amount_draw : ℚ
  is_maker : Bool
  trade_id : String
  user_index : ℕ
  order_type : String

/-- Loop body of `generate_mock_trades` (generators.py lines 353-409).  The
independent trade generator has no order to reference, so `order_id` is
empty.  `supported_crypto` is the `SUPPORTED_CRYPTO` config list, absent
from the source tree. -/
def mkTradeRecord (crypto_prices : List (String × ℚ)) (supported_crypto : List String)
    (target_date : Option ℤ) (now : ℤ) (user_ids : List String) (r : TradeRand) : TradeRecord :=
  let trade_date := rowTimestamp target_date now r.random_seconds r.days_ago r.minutes_ago
  let base_amount := roundTo r.base_amount_draw 8
  let base_price_usd := dictGet crypto_prices r.base_currency 1000
  let quote_amount :=
    if supported_crypto.contains r.quote_currency then
      roundTo (base_amount * base_price_usd / dictGet crypto_prices r.quote_currency 1000) 8
    else roundTo (base_amount * base_price_usd) 2
  let fee_rate : ℚ := if r.is_maker then 25/10000 else 40/10000
  { trade_id := r.trade_id
    order_id := ""
    user_id := user_ids.getD (r.user_index % user_ids.length) ""
    timestamp := trade_date
    trading_pair := r.base_currency ++ "/" ++ r.quote_currency
    side := r.side
    base_currency := r.base_currency
    quote_currency := r.quote_currency
    base_amount := base_amount
    quote_amount := quote_amount
    price := roundTo (quote_amount / base_amount) 8
    fee_amount := roundTo (quote_amount * fee_rate) 8
    fee_currency := r.quote_currency
    order_type := r.order_type
    is_maker := r.is_maker
    created_at := trade_date }

def generate_mock_trades (num_trades : ℕ) (crypto_prices : List (String × ℚ))
    (supported_crypto : List String) (target_date : Option ℤ) (user_ids : List String)
    (now : ℤ) (rand : ℕ → TradeRand) : Except String (List TradeRecord) :=
  if user_ids.isEmpty then .error refIntegrityError
  else .ok ((List.range num_trades).map fun i =>
    mkTradeRecord crypto_prices supported_crypto target_date now user_ids (rand i))

/-- Per-row draws of `generate_mock_orders`. -/
structure OrderRand where
  random_seconds : ℕ
  days_ago : ℕ
  minutes_ago : ℕ
  base_currency : String
  quote_currency : String
  side : String
  order_type : String
  base_amount_draw : ℚ
  price_variation : ℚ
  status : String
  fill_fraction : ℚ
  order_id : String
  user_index : ℕ

structure OrderRecord where
  order_id : String
  user_id : String
  timestamp : ℤ
  trading_pair : String
  side : String
  order_type : String
  base_currency : String
  quote_currency : String
  base_amount : ℚ
  filled_amount : ℚ
  limit_price : Option ℚ
  status : String
  created_at : ℤ
deriving DecidableEq

/-- Loop body of `generate_mock_orders` (generators.py lines 433-493). -/
def mkOrderRecord (crypto_prices : List (String × ℚ)) (target_date : Option ℤ) (now : ℤ)
    (user_ids : List String) (r : OrderRand) : OrderRecord :=
  let order_date := rowTimestamp target_date now r.random_seconds r.days_ago r.minutes_ago
  let base_amount := roundTo r.base_amount_draw 8
  let base_price_usd := dictGet crypto_prices r.base_currency 1000
  let limit_price := if r.order_type == "limit"
    then some (roundTo (base_price_usd * r.price_variation) 2) else none
  let filled_amount :=
    if r.status == "filled" then base_amount
    else if r.status == "partially_filled" then roundTo (base_amount * r.fill_fraction) 8
    else 0
  { order_id := r.order_id
    user_id := user_ids.getD (r.user_index % user_ids.length) ""
    timestamp := order_date
    trading_pair := r.base_currency ++ "/" ++ r.quote_currency
    side := r.side
    order_type := r.order_type
    base_currency := r.base_currency
    quote_currency := r.quote_currency
    base_amount := base_amount
    filled_amount := filled_amount
    limit_price := limit_price
    status := r.status
    created_at := order_date }

def generate_mock_orders (num_orders : ℕ) (crypto_prices : List (String × ℚ))
    (target_date : Option ℤ) (user_ids : List String) (now : ℤ) (rand : ℕ → OrderRand) :
    Except String (List OrderRecord) :=
  if user_ids.isEmpty then .error refIntegrityError
  else .ok ((List.range num_orders).map fun i =>
    mkOrderRecord crypto_prices target_date now user_ids (rand i))

/-- **C4** (code bug): the timestamp offset is drawn with
`random.randint(0, 86400)`, whose support includes 86400 itself, so a row's
timestamp can land exactly on the following day's midnight — outside the
target day, contrary to the claimed [0, 86400) draw. -/
theorem c4_timestamp_can_leave_target_day :
    randintMem 0 86400 86400 ∧
    (mkRampRecord [] [] (some 0) 0 ["u1"]
      { random_seconds := 86400, days_ago := 0, minutes_ago := 0, country_code := "US",
        fiat_currency := "USD", fiat_amount_draw := 100, crypto_token := "bitcoin",
        transaction_id := "t1", user_index := 0, payment_method := "card",
        status := "completed" }).timestamp = 0 * secondsPerDay + secondsPerDay ∧
    ¬ ((mkRampRecord [] [] (some 0) 0 ["u1"]
      { random_seconds := 86400, days_ago := 0, minutes_ago := 0, country_code := "US",
        fiat_currency := "USD", fiat_amount_draw := 100, crypto_token := "bitcoin",
        transaction_id := "t1", user_index := 0, payment_method := "card",
        status := "completed" }).timestamp < 0 * secondsPerDay + secondsPerDay) := by
  refine ⟨⟨by norm_num, le_refl _⟩, ?_, ?_⟩ <;>
    simp [mkRampRecord, rowTimestamp, secondsPerDay]

/-- **C7**: every dependent-entity generator called with an empty user-id
pool raises the explicit referential-integrity `ValueError` (and hence
emits no rows at all). -/
theorem c7_empty_pool_raises (num : ℕ) (crypto_prices fx_rates : List (String × ℚ))
    (supported_crypto : List String) (target_date : Option ℤ) (now : ℤ)
    (r1 : ℕ → RampRand) (r2 : ℕ → DepositRand) (r3 : ℕ → WithdrawalRand)
    (r4 : ℕ → TradeRand) (r5 : ℕ → OrderRand) :
    generate_mock_ramp_data num crypto_prices fx_rates target_date [] now r1
        = .error refIntegrityError ∧
    generate_mock_deposits num target_date [] now r2 = .error refIntegrityError ∧
    generate_mock_withdrawals num target_date [] now r3 = .error refIntegrityError ∧
    generate_mock_trades num crypto_prices supported_crypto target_date [] now r4
        = .error refIntegrityError ∧
    generate_mock_orders num crypto_prices target_date [] now r5 = .error refIntegrityError :=
  ⟨rfl, rfl, rfl, rfl, rfl⟩

/-- **C8**: the ramp monetary fields follow the two-step conversion:
`usd = fiat_amount / fx_rate` (default rate 1 when the currency is absent),
`net = usd × (1 − 0.015)`, `crypto_amount = round₈(net / token_price)` when
the token price is positive and 0 otherwise (in particular when the token
is absent, whose default price is 0), and `fee_usd = round₂(usd × 0.015)`.
The hypothesis excludes a zero fx rate, on which the source would raise
`ZeroDivisionError`. -/
theorem c8_ramp_two_step_conversion (crypto_prices fx_rates : List (String × ℚ))
    (target_date : Option ℤ) (now : ℤ) (user_ids : List String) (r : RampRand)
    (hrate : dictGet fx_rates r.fiat_currency 1 ≠ 0) :
    (mkRampRecord crypto_prices fx_rates target_date now user_ids r).fiat_amount
        = roundTo r.fiat_amount_draw 2 ∧
    (mkRampRecord crypto_prices fx_rates target_date now user_ids r).fee_usd
        = roundTo ((roundTo r.fiat_amount_draw 2 / dictGet fx_rates r.fiat_currency 1)
            * (15/1000)) 2 ∧
    (0 < dictGet crypto_prices r.crypto_token 0 →
      (mkRampRecord crypto_prices fx_rates target_date now user_ids r).crypto_amount
        = roundTo (((roundTo r.fiat_amount_draw 2 / dictGet fx_rates r.fiat_currency 1)
            * (1 - 15/1000)) / dictGet crypto_prices r.crypto_token 0) 8) ∧
    (¬ 0 < dictGet crypto_prices r.crypto_token 0 →
      (mkRampRecord crypto_prices fx_rates target_date now user_ids r).crypto_amount = 0) ∧
    (crypto_prices.find? (fun p => p.1 == r.crypto_token) = none →
      (mkRampRecord crypto_prices fx_rates target_date now user_ids r).crypto_amount = 0) ∧
    (fx_rates.find? (fun p => p.1 == r.fiat_currency) = none →
      (mkRampRecord crypto_prices fx_rates target_date now user_ids r).fee_usd
        = roundTo (roundTo r.fiat_amount_draw 2 * (15/1000)) 2) := by
  refine ⟨rfl, rfl, ?_, ?_, ?_, ?_⟩
  · intro hpos
    simp [mkRampRecord, hpos]
  · intro hpos
    simp [mkRampRecord, hpos, roundTo_zero]
  · intro hfind
    simp [mkRampRecord, dictGet, hfind, roundTo_zero]
  · intro hfind
    simp [mkRampRecord, dictGet, hfind]

/-- Witness for C8: the spec §8 example — 100 EUR at rate 0.92, bitcoin at
50000 — has a nonzero fx rate, and the theorem computes its fee. -/
theorem c8_ramp_two_step_conversion_witness :
    (mkRampRecord [("bitcoin", 50000)] [("EUR", 92/100)] none 0 ["u1"]
      { random_seconds := 0, days_ago := 0, minutes_ago := 0, country_code := "DE",
        fiat_currency := "EUR", fiat_amount_draw := 100, crypto_token := "bitcoin",
        transaction_id := "t1", user_index := 0, payment_method := "card",
        status := "completed" }).fee_usd
      = roundTo ((roundTo (100 : ℚ) 2 / dictGet [("EUR", 92/100)] "EUR" 1) * (15/1000)) 2 :=
  (c8_ramp_two_step_conversion [("bitcoin", 50000)] [("EUR", 92/100)] none 0 ["u1"]
    _ (by norm_num [dictGet, List.find?])).2.1

/-! ## Referential linker (`generate_trades_from_orders`) -/

/-- Per-order draws of `generate_trades_from_orders`: a fresh trade id, the
market-price draw `random.uniform(1000, 100000)` used when the order has no
limit price, and the maker/taker coin flip. -/
structure TradeFromOrderRand where
  trade_id : String
  market_price_draw : ℚ
  is_maker : Bool

/-- The status filter of `generate_trades_from_orders`:
`orders_df['status'].isin(['filled', 'partially_filled'])`. -/
def qualifiesForTrade (o : OrderRecord) : Bool :=
  o.status == "filled" || o.status == "partially_filled"

/-- Loop body of `generate_trades_from_orders` (generators.py lines
526-564): one trade derived from one qualifying order. -/
def trade_of_order (o : OrderRecord) (r : TradeFromOrderRand) : TradeRecord :=
  let base_amount := o.filled_amount
  let price := match o.limit_price with
    | some p => p
    | none => roundTo r.market_price_draw 2
  let quote_amount := roundTo (base_amount * price) 8
  let fee_rate : ℚ := if r.is_maker then 25/10000 else 40/10000
  let fee_amount := roundTo (quote_amount * fee_rate) 8
  { trade_id := r.trade_id
    order_id := o.order_id
    user_id := o.user_id
    timestamp := o.timestamp
    trading_pair := o.trading_pair
    side := o.side
    base_currency := o.base_currency
    quote_currency := o.quote_currency
    base_amount := base_amount
    quote_amount := quote_amount
    price := price
    fee_amount := fee_amount
    fee_currency := o.quote_currency
    order_type := o.order_type
    is_maker := r.is_maker
    created_at := o.created_at }

/-- The `for _, order in filled_orders.iterrows()` loop, threading the draw
stream by position. -/
def tradesFromOrdersLoop (rand : ℕ → TradeFromOrderRand) :
    ℕ → List OrderRecord → List TradeRecord
  | _, [] => []
  | i, o :: os => trade_of_order o (rand i) :: tradesFromOrdersLoop rand (i + 1) os

def generate_trades_from_orders (orders : List OrderRecord)
    (rand : ℕ → TradeFromOrderRand) : List TradeRecord :=
  tradesFromOrdersLoop rand 0 (orders.filter qualifiesForTrade)

theorem tradesFromOrdersLoop_length (rand : ℕ → TradeFromOrderRand) :
    ∀ (i : ℕ) (l : List OrderRecord), (tradesFromOrdersLoop rand i l).length = l.length := by
  intro i l
  induction l generalizing i with
  | nil => rfl
  | cons o os ih => simp [tradesFromOrdersLoop, ih]

theorem tradesFromOrdersLoop_getElem? (rand : ℕ → TradeFromOrderRand) :
    ∀ (l : List OrderRecord) (i j : ℕ),
      (tradesFromOrdersLoop rand i l)[j]?
        = l[j]?.map (fun o => trade_of_order o (rand (i + j))) := by
  intro l
  induction l with
  | nil => intro i j; simp [tradesFromOrdersLoop]
  | cons o os ih =>
    intro i j
    cases j with
    | zero => simp [tradesFromOrdersLoop]
    | succ j =>
      have harith : i + 1 + j = i + (j + 1) := by omega
      simp [tradesFromOrdersLoop, ih (i + 1) j, harith]

/-- A filled limit order whose `filled_amount × limit_price` needs more
than 8 decimal places: 0.00000003 × 0.15 = 0.0000000045. -/
def oC6 : OrderRecord :=
  { order_id := "o1", user_id := "u1", timestamp := 0, trading_pair := "BTC/USD",
    side := "buy", order_type := "limit", base_currency := "BTC", quote_currency := "USD",
    base_amount := 1, filled_amount := 3/100000000, limit_price := some (3/20),
    status := "filled", created_at := 0 }

def rC6 : ℕ → TradeFromOrderRand :=
  fun _ => { trade_id := "t1", market_price_draw := 1000, is_maker := true }

/-- **C6, counterexample**: the emitted trade stores
`quote_amount = round₈(base_amount × price)`, not the exact product: on
`oC6` the stored quote amount is 0 while `base_amount × price` is
0.0000000045. -/
theorem c6_counterexample :
    (generate_trades_from_orders [oC6] rC6).map
        (fun t => (t.quote_amount, t.base_amount * t.price)) = [(0, 9/2000000000)] ∧
    (0 : ℚ) ≠ 9/2000000000 := by
  constructor
  · simp only [generate_trades_from_orders, List.filter, qualifiesForTrade, oC6,
      tradesFromOrdersLoop, trade_of_order, rC6, List.map]
    norm_num [roundTo, roundHalfEven, oC6]
  · norm_num

/-- **C6, amended**: `generate_trades_from_orders` emits exactly one trade
per qualifying order (status filled or partially_filled), positionally, and
no trade for any other order; each trade copies the identification fields
verbatim, takes `base_amount = order.filled_amount`, `price` from the limit
price when present (else the drawn market price rounded to 2 places),
`quote_amount = round₈(base_amount × price)`,
`fee_amount = round₈(quote_amount × rate)` at maker rate 0.25% / taker rate
0.40%, and `fee_currency = order.quote_currency`. -/
theorem c6_amended_trade_derivation (orders : List OrderRecord)
    (rand : ℕ → TradeFromOrderRand) :
    (generate_trades_from_orders orders rand).length
        = (orders.filter qualifiesForTrade).length ∧
    ∀ (j : ℕ) (t : TradeRecord) (o : OrderRecord),
      (generate_trades_from_orders orders rand)[j]? = some t →
      (orders.filter qualifiesForTrade)[j]? = some o →
      (o.status = "filled" ∨ o.status = "partially_filled") ∧
      t.order_id = o.order_id ∧ t.user_id = o.user_id ∧ t.timestamp = o.timestamp ∧
      t.trading_pair = o.trading_pair ∧ t.side = o.side ∧
      t.base_currency = o.base_currency ∧ t.quote_currency = o.quote_currency ∧
      t.order_type = o.order_type ∧ t.created_at = o.created_at ∧
      t.base_amount = o.filled_amount ∧
      t.price = (match o.limit_price with
        | some p => p
        | none => roundTo (rand j).market_price_draw 2) ∧
      t.quote_amount = roundTo (o.filled_amount * t.price) 8 ∧
      t.fee_amount = roundTo (t.quote_amount
          * (if (rand j).is_maker then 25/10000 else 40/10000)) 8 ∧
      t.fee_currency = o.quote_currency ∧
      t.is_maker = (rand j).is_maker := by
  constructor
  · exact tradesFromOrdersLoop_length rand 0 _
  · intro j t o ht ho
    have hmem : o ∈ orders.filter qualifiesForTrade := by
      apply List.get?_mem
      rw [List.get?_eq_getElem?]
      exact ho
    have hqual : qualifiesForTrade o = true := (List.mem_filter.mp hmem).2
    have hstat : o.status = "filled" ∨ o.status = "partially_filled" := by
      simpa [qualifiesForTrade] using hqual
    have hmap := tradesFromOrdersLoop_getElem? rand (orders.filter qualifiesForTrade) 0 j
    rw [ho] at hmap
    have hform : t = trade_of_order o (rand j) := by
      rw [generate_trades_from_orders] at ht
      rw [ht] at hmap
      simpa using hmap
    subst hform
    refine ⟨hstat, ?_⟩
    simp [trade_of_order]

/-- Witness for C6 (amended): the concrete order `oC6` at position 0. -/
theorem c6_amended_trade_derivation_witness :
    (trade_of_order oC6 (rC6 0)).base_amount = oC6.filled_amount :=
  ((c6_amended_trade_derivation [oC6] rC6).2 0 (trade_of_order oC6 (rC6 0)) oC6
      rfl rfl).2.2.2.2.2.2.2.2.2.2.1

/-- **C9**: for every generated order, `filled_amount = base_amount` iff
the drawn status is filled, `0 < filled_amount < base_amount` iff the
status is partially_filled, and `filled_amount = 0` for every other status
in the generator's support; the hypotheses are the supports of
`random.uniform(0.01, 50.0)` (base amount) and `random.uniform(0.1, 0.9)`
(partial-fill fraction), under which 8-decimal rounding can neither
collapse the partial fill to 0 nor raise it to the base amount. -/
theorem c9_filled_amount_iff_status (crypto_prices : List (String × ℚ))
    (target_date : Option ℤ) (now : ℤ) (user_ids : List String) (r : OrderRand)
    (hb1 : 1/100 ≤ r.base_amount_draw) (hb2 : r.base_amount_draw ≤ 50)
    (hf1 : 1/10 ≤ r.fill_fraction) (hf2 : r.fill_fraction ≤ 9/10)
    (hs : r.status = "filled" ∨ r.status = "open" ∨ r.status = "cancelled"
        ∨ r.status = "partially_filled" ∨ r.status = "expired") :
    ((mkOrderRecord crypto_prices target_date now user_ids r).filled_amount
        = (mkOrderRecord crypto_prices target_date now user_ids r).base_amount
      ↔ (mkOrderRecord crypto_prices target_date now user_ids r).status = "filled") ∧
    ((0 < (mkOrderRecord crypto_prices target_date now user_ids r).filled_amount ∧
      (mkOrderRecord crypto_prices target_date now user_ids r).filled_amount
        < (mkOrderRecord crypto_prices target_date now user_ids r).base_amount)
      ↔ (mkOrderRecord crypto_prices target_date now user_ids r).status
          = "partially_filled") ∧
    ((mkOrderRecord crypto_prices target_date now user_ids r).status ≠ "filled" →
      (mkOrderRecord crypto_prices target_date now user_ids r).status ≠ "partially_filled" →
      (mkOrderRecord crypto_prices target_date now user_ids r).filled_amount = 0) := by
  obtain ⟨rs, dg, mg, bc, qc, sd, ot, bad, pv, st, ff, oid, ui⟩ := r
  simp only at hb1 hb2 hf1 hf2 hs
  have hrb := roundTo_sub_abs_le bad 8
  rw [abs_le] at hrb
  obtain ⟨hrb1, hrb2⟩ := hrb
  have hbpos : 0 < roundTo bad 8 := by
    norm_num at hrb1 ⊢
    linarith
  have hrp := roundTo_sub_abs_le (roundTo bad 8 * ff) 8
  rw [abs_le] at hrp
  obtain ⟨hrp1, hrp2⟩ := hrp
  have hmul1 : roundTo bad 8 * (1/10) ≤ roundTo bad 8 * ff :=
    mul_le_mul_of_nonneg_left hf1 hbpos.le
  have hmul2 : roundTo bad 8 * ff ≤ roundTo bad 8 * (9/10) :=
    mul_le_mul_of_nonneg_left hf2 hbpos.le
  have hppos : 0 < roundTo (roundTo bad 8 * ff) 8 := by
    norm_num at hrp1 hrb1 ⊢
    linarith
  have hplt : roundTo (roundTo bad 8 * ff) 8 < roundTo bad 8 := by
    norm_num at hrp2 hrb1 ⊢
    linarith
  rcases hs with rfl | rfl | rfl | rfl | rfl
  · refine ⟨by simp [mkOrderRecord], ?_, by simp [mkOrderRecord]⟩
    simp [mkOrderRecord]
  · exact ⟨by simp [mkOrderRecord, hbpos.ne], by simp [mkOrderRecord], by simp [mkOrderRecord]⟩
  · exact ⟨by simp [mkOrderRecord, hbpos.ne], by simp [mkOrderRecord], by simp [mkOrderRecord]⟩
  · refine ⟨by simp [mkOrderRecord, hplt.ne], ?_, by simp [mkOrderRecord]⟩
    simp only [mkOrderRecord]
    simp
    exact ⟨hppos, hplt⟩
  · exact ⟨by simp [mkOrderRecord, hbpos.ne], by simp [mkOrderRecord], by simp [mkOrderRecord]⟩

/-- A concrete order draw: base amount 1, partial fill fraction 1/2. -/
def rc9 : OrderRand :=
  { random_seconds := 0, days_ago := 0, minutes_ago := 0, base_currency := "BTC",
    quote_currency := "USD", side := "buy", order_type := "limit", base_amount_draw := 1,
    price_variation := 1, status := "partially_filled", fill_fraction := 1/2,
    order_id := "o1", user_index := 0 }

/-- Witness for C9: the partially_filled iff at the concrete draw `rc9`. -/
theorem c9_filled_amount_iff_status_witness :
    (0 < (mkOrderRecord [] none 0 ["u1"] rc9).filled_amount ∧
      (mkOrderRecord [] none 0 ["u1"] rc9).filled_amount
        < (mkOrderRecord [] none 0 ["u1"] rc9).base_amount)
      ↔ (mkOrderRecord [] none 0 ["u1"] rc9).status = "partially_filled" :=
  (c9_filled_amount_iff_status [] none 0 ["u1"] rc9 (by norm_num [rc9]) (by norm_num [rc9])
    (by norm_num [rc9]) (by norm_num [rc9]) (by simp [rc9])).2.1

/-! ## Orchestrator (`run_ingestion`, main.py lines 35-129)

A run is modelled as a function of an environment that fixes the persisted
state, the clock, and the outcome of each external collaborator call
(BigQuery client, table creation, user-id query — which swallows its own
errors and yields a possibly-empty list —, warehouse load job, CSV backup
write; the market-data fetchers never fail, falling back to constants).
The run yields the ordered trace of completed steps and the resulting
persisted state.  `DAILY_BATCH_SIZE` is imported from `config` but has no
definition in the source tree, so it is an environment field. -/

inductive Table where
  | ramp : Table
  | users : Table
  | deposits : Table
  | withdrawals : Table
  | orders : Table
  | trades : Table
deriving DecidableEq

inductive Event where
  | determinedDate : ℤ → Event
  | upToDate : Event
  | clientConnected : Event
  | tableCreated : Table → Event
  | noUsersFound : Event
  | gotUserIds : ℕ → Event
  | fetchedPrices : Event
  | fetchedRates : Event
  | generated : Table → ℕ → Event
  | loaded : Table → ℕ → Event
  | csvSaved : Event
  | savedState : ℤ → Event
  | aborted : String → Event
deriving DecidableEq

structure Env where
  stateFile : StateContent
  today : ℤ
  now : ℤ
  daily_batch_size : ℕ
  clientOk : Bool
  createTableOk : Bool
  user_ids : List String
  crypto_prices : List (String × ℚ)
  fx_rates : List (String × ℚ)
  rand : ℕ → RampRand
  loadOk : Bool
  csvOk : Bool

/-- `run_ingestion`: determine the batch date (a state-read error
propagates), return early when caught up, connect, ensure the ramp table,
fetch user ids (early return when none), fetch market data, generate the
day's ramp rows, load them to BigQuery, write the CSV backup, and only
then save the state metadata.  Any failing step aborts the run with the
state file untouched. -/
def run_ingestion (env : Env) : List Event × StateContent :=
  match get_next_batch_date env.stateFile env.today with
  | .error e => ([.aborted e], env.stateFile)
  | .ok none => ([.upToDate], env.stateFile)
  | .ok (some batch_date) =>
    if env.clientOk = false then
      ([.determinedDate batch_date, .aborted "bigquery client"], env.stateFile)
    else if env.createTableOk = false then
      ([.determinedDate batch_date, .clientConnected, .aborted "create table"],
        env.stateFile)
    else if env.user_ids.isEmpty then
      ([.determinedDate batch_date, .clientConnected, .tableCreated .ramp, .noUsersFound],
        env.stateFile)
    else
      match generate_mock_ramp_data env.daily_batch_size env.crypto_prices env.fx_rates
          (some batch_date) env.user_ids env.now env.rand with
      | .error e =>
        ([.determinedDate batch_date, .clientConnected, .tableCreated .ramp,
          .gotUserIds env.user_ids.length, .fetchedPrices, .fetchedRates, .aborted e],
          env.stateFile)
      | .ok df =>
        if env.loadOk = false then
          ([.determinedDate batch_date, .clientConnected, .tableCreated .ramp,
            .gotUserIds env.user_ids.length, .fetchedPrices, .fetchedRates,
            .generated .ramp df.length, .aborted "load job"], env.stateFile)
        else if env.csvOk = false then
          ([.determinedDate batch_date, .clientConnected, .tableCreated .ramp,
            .gotUserIds env.user_ids.length, .fetchedPrices, .fetchedRates,
            .generated .ramp df.length, .loaded .ramp df.length, .aborted "csv backup"],
            env.stateFile)
        else
          ([.determinedDate batch_date, .clientConnected, .tableCreated .ramp,
            .gotUserIds env.user_ids.length, .fetchedPrices, .fetchedRates,
            .generated .ramp df.length, .loaded .ramp df.length, .csvSaved,
            .savedState batch_date], save_last_run_date batch_date)

/-- Scans a trace: `true` iff no state commit occurs before the ramp rows
were successfully loaded to the warehouse. -/
def commitOnlyAfterLoad : List Event → Bool
  | [] => true
  | .loaded .ramp _ :: _ => true
  | .savedState _ :: _ => false
  | _ :: es => commitOnlyAfterLoad es

/-- The tables for which a run generated rows, in order. -/
def tablesGenerated (events : List Event) : List Table :=
  events.filterMap fun e =>
    match e with
    | .generated t _ => some t
    | _ => none

/-- The tables handed to the warehouse sink by a run, in order. -/
def tablesLoaded (events : List Event) : List Table :=
  events.filterMap fun e =>
    match e with
    | .loaded t _ => some t
    | _ => none

/-- The exact trace and final state of a fully successful run. -/
theorem run_ingestion_success_trace (env : Env) (d : ℤ)
    (h : get_next_batch_date env.stateFile env.today = .ok (some d))
    (hc : env.clientOk = true) (ht : env.createTableOk = true)
    (hu : env.user_ids.isEmpty = false) (hl : env.loadOk = true) (hcsv : env.csvOk = true) :
    (run_ingestion env).1
      = [.determinedDate d, .clientConnected, .tableCreated .ramp,
        .gotUserIds env.user_ids.length, .fetchedPrices, .fetchedRates,
        .generated .ramp env.daily_batch_size, .loaded .ramp env.daily_batch_size,
        .csvSaved, .savedState d] ∧
    (run_ingestion env).2 = save_last_run_date d := by
  simp [run_ingestion, h, hc, ht, hu, hl, hcsv, generate_mock_ramp_data]

/-- **C1**: a run never commits state before the warehouse load succeeded
(trace order), a committed run did load; and when the warehouse load — or
any step before it — fails, the state file is untouched, so the next run
recomputes the same batch date. -/
theorem c1_state_commit_strictly_after_load (env : Env) :
    commitOnlyAfterLoad (run_ingestion env).1 = true ∧
    (∀ d, Event.savedState d ∈ (run_ingestion env).1 →
      env.loadOk = true ∧ Event.determinedDate d ∈ (run_ingestion env).1 ∧
      ∃ n, Event.loaded .ramp n ∈ (run_ingestion env).1) ∧
    (env.loadOk = false → (run_ingestion env).2 = env.stateFile ∧
      get_next_batch_date (run_ingestion env).2 env.today
        = get_next_batch_date env.stateFile env.today) ∧
    ((env.clientOk = false ∨ env.createTableOk = false) →
      (run_ingestion env).2 = env.stateFile) ∧
    (∀ e, get_next_batch_date env.stateFile env.today = .error e →
      (run_ingestion env).2 = env.stateFile) := by
  cases h : get_next_batch_date env.stateFile env.today with
  | error e => simp [run_ingestion, h, commitOnlyAfterLoad]
  | ok lr =>
    cases lr with
    | none => simp [run_ingestion, h, commitOnlyAfterLoad]
    | some batch_date =>
      by_cases hc : env.clientOk = false
      · simp [run_ingestion, h, hc, commitOnlyAfterLoad]
      · by_cases ht : env.createTableOk = false
        · simp [run_ingestion, h, hc, ht, commitOnlyAfterLoad]
        · by_cases hu : env.user_ids.isEmpty
          · simp [run_ingestion, h, hc, ht, hu, commitOnlyAfterLoad]
          · by_cases hl : env.loadOk = false
            · simp [run_ingestion, h, hc, ht, hu, hl, commitOnlyAfterLoad,
                generate_mock_ramp_data]
            · by_cases hcsv : env.csvOk = false
              · simp [run_ingestion, h, hc, ht, hu, hl, hcsv, commitOnlyAfterLoad,
                  generate_mock_ramp_data]
              · simp [run_ingestion, h, hc, ht, hu, hl, hcsv, commitOnlyAfterLoad,
                  generate_mock_ramp_data]

/-- A fixed draw record for concrete runs. -/
def rampRandDefault : RampRand :=
  { random_seconds := 0, days_ago := 0, minutes_ago := 0, country_code := "US",
    fiat_currency := "USD", fiat_amount_draw := 100, crypto_token := "bitcoin",
    transaction_id := "t0", user_index := 0, payment_method := "card",
    status := "completed" }

/-- A run on a fresh state where the warehouse load job fails. -/
def envFail : Env :=
  { stateFile := .absent, today := 0, now := 0, daily_batch_size := 1,
    clientOk := true, createTableOk := true, user_ids := ["u1"],
    crypto_prices := [], fx_rates := [], rand := fun _ => rampRandDefault,
    loadOk := false, csvOk := true }

/-- A fully successful run on a fresh state. -/
def envOK : Env :=
  { stateFile := .absent, today := 0, now := 0, daily_batch_size := 1,
    clientOk := true, createTableOk := true, user_ids := ["u1"],
    crypto_prices := [], fx_rates := [], rand := fun _ => rampRandDefault,
    loadOk := true, csvOk := true }

/-- Witness for C1: a failing load leaves the state file untouched, and a
successful commit implies the load happened. -/
theorem c1_state_commit_strictly_after_load_witness :
    ((run_ingestion envFail).2 = envFail.stateFile ∧
      get_next_batch_date (run_ingestion envFail).2 envFail.today
        = get_next_batch_date envFail.stateFile envFail.today) ∧
    (envOK.loadOk = true ∧ Event.determinedDate (-90) ∈ (run_ingestion envOK).1 ∧
      ∃ n, Event.loaded .ramp n ∈ (run_ingestion envOK).1) :=
  ⟨(c1_state_commit_strictly_after_load envFail).2.2.1 rfl,
    (c1_state_commit_strictly_after_load envOK).2.1 (-90) (by
      rw [(run_ingestion_success_trace envOK (-90)
        (by norm_num [get_next_batch_date, get_last_run_date, envOK]) rfl rfl rfl rfl rfl).1]
      simp)⟩

/-- **C5, counterexample**: a fully successful, committing orchestrator run
generates and loads rows for no table other than RampTransactions —
Deposits, Withdrawals, Orders and Trades are untouched, refuting the claim
that one run produces a day of rows for every dependent table. -/
theorem c5_counterexample :
    Event.savedState (-90) ∈ (run_ingestion envOK).1 ∧
    Table.deposits ∉ tablesGenerated (run_ingestion envOK).1 ∧
    Table.withdrawals ∉ tablesGenerated (run_ingestion envOK).1 ∧
    Table.orders ∉ tablesGenerated (run_ingestion envOK).1 ∧
    Table.trades ∉ tablesGenerated (run_ingestion envOK).1 ∧
    Table.deposits ∉ tablesLoaded (run_ingestion envOK).1 ∧
    Table.trades ∉ tablesLoaded (run_ingestion envOK).1 := by
  have h := run_ingestion_success_trace envOK (-90)
    (by norm_num [get_next_batch_date, get_last_run_date, envOK]) rfl rfl rfl rfl rfl
  rw [h.1]
  simp [tablesGenerated, tablesLoaded]

/-- **C5, amended**: when a run obtains a target batch date and commits it,
it has generated one day's rows for the RampTransactions table only and
handed exactly that table's rows to the warehouse sink before the commit;
the other tables (Users, Deposits, Withdrawals, Orders, Trades) are
populated by separate one-time bootstrap operations, not by the
per-batch orchestrator run. -/
theorem c5_amended_run_loads_only_ramp_table (env : Env) (d : ℤ)
    (h : Event.savedState d ∈ (run_ingestion env).1) :
    tablesGenerated (run_ingestion env).1 = [Table.ramp] ∧
    tablesLoaded (run_ingestion env).1 = [Table.ramp] ∧
    commitOnlyAfterLoad (run_ingestion env).1 = true := by
  cases hb : get_next_batch_date env.stateFile env.today with
  | error e => simp [run_ingestion, hb] at h
  | ok lr =>
    cases lr with
    | none => simp [run_ingestion, hb] at h
    | some batch_date =>
      by_cases hc : env.clientOk = false
      · simp [run_ingestion, hb, hc] at h
      · by_cases ht : env.createTableOk = false
        · simp [run_ingestion, hb, hc, ht] at h
        · by_cases hu : env.user_ids.isEmpty
          · simp [run_ingestion, hb, hc, ht, hu] at h
          · by_cases hl : env.loadOk = false
            · simp [run_ingestion, hb, hc, ht, hu, hl, generate_mock_ramp_data] at h
            · by_cases hcsv : env.csvOk = false
              · simp [run_ingestion, hb, hc, ht, hu, hl, hcsv,
                  generate_mock_ramp_data] at h
              · simp [run_ingestion, hb, hc, ht, hu, hl, hcsv, generate_mock_ramp_data,
                  tablesGenerated, tablesLoaded, commitOnlyAfterLoad]

/-- Witness for C5 (amended): the successful concrete run `envOK`. -/
theorem c5_amended_run_loads_only_ramp_table_witness :
    tablesGenerated (run_ingestion envOK).1 = [Table.ramp] ∧
    tablesLoaded (run_ingestion envOK).1 = [Table.ramp] ∧
    commitOnlyAfterLoad (run_ingestion envOK).1 = true :=
  c5_amended_run_loads_only_ramp_table envOK (-90) (by
    rw [(run_ingestion_success_trace envOK (-90)
      (by norm_num [get_next_batch_date, get_last_run_date, envOK]) rfl rfl rfl rfl rfl).1]
    simp)

end Ingestion
